import Mathlib

/-!
Verification of the native shell of the roomy desktop application
(src/src-tauri/src/lib.rs), shallowly embedded in Lean 4.

The Rust source is glue code over the Tauri framework: a `run` function
that configures a `Builder` with plugins (single-instance on desktop,
deep-link, debug logging) and registers one invocable command
`open_url`, plus the `Error` type that command declares.

Modelling conventions:
  * OS interaction is an oracle `os : String → Except IoError Unit`
    standing for `open::that`.
  * Side effects are recorded in an explicit trace (`List Effect`).
  * Rust panics (`unwrap`, `expect`) are a distinct `Outcome.panicked`
    constructor carrying the panic message: a panicking call returns no
    value at all, in particular not the `Err` variant of its `Result`.
  * Conditional compilation flags (`#[cfg(desktop)]`,
    `#[cfg(debug_assertions)]`, `#[cfg(any(target_os = "linux", windows))]`)
    become boolean parameters of the environment.
-/

namespace Roomy

/-- Display string of a Rust `std::io::Error` (all our embedding needs of it). -/
structure IoError where
  msg : String
deriving DecidableEq, Repr

/-- The shell's error enum (src/src-tauri/src/lib.rs): a single variant
`Io` wrapping `std::io::Error`. -/
inductive Error where
  | Io : IoError → Error
deriving DecidableEq, Repr

/-- `#[error(transparent)]`: `Display` for `Error` delegates to the wrapped
I/O error's display string. -/
def Error.display : Error → String
  | .Io e => e.msg

/-- `#[from] std::io::Error`: the generated `From<std::io::Error>` conversion. -/
def Error.fromIo (e : IoError) : Error := Error.Io e

/-- The manual `serde::Serialize` impl: `serializer.serialize_str(self.to_string())`,
i.e. the serialized form is exactly the display string. -/
def Error.serialize (e : Error) : String := e.display

/-- How a Rust function call can end in our embedding: return a value,
return the declared error, or panic (diverge) with a message. -/
inductive Outcome (α : Type) where
  | ok : α → Outcome α
  | err : Error → Outcome α
  | panicked : String → Outcome α
deriving DecidableEq, Repr

/-- Observable side effects of the shell code. -/
inductive Effect where
  | osOpen (url : String)
  | printLn (s : String)
  | spawnThread
  | createWindow (label : String)
  | focusWindow (label : String)
  | registerDeepLink
  | attachLogger (level : String)
deriving DecidableEq, Repr

/-- Panic message produced by `Result::unwrap` on an `Err` value. -/
def unwrapPanicMsg : String := "called Result::unwrap on an Err value"

/-- `open_url` (src/src-tauri/src/lib.rs lines 44-48):
`open::that(url).unwrap(); Ok(())`.  The OS opener is the oracle `os`;
the call hands it `url` unchanged (recorded in the trace), then `unwrap`
panics if the OS call failed, and otherwise the function returns `Ok(())`. -/
def open_url (os : String → Except IoError Unit) (url : String) :
    Outcome Unit × List Effect :=
  match os url with
  | .ok _ => (.ok (), [.osOpen url])
  | .error _ => (.panicked unwrapPanicMsg, [.osOpen url])

/-- Whether the OS accepted an open request. -/
def osAccepted : Except IoError Unit → Bool
  | .ok _ => true
  | .error _ => false

/-- The strings a trace hands to the OS opener. -/
def handedToOs (t : List Effect) : List String :=
  t.filterMap fun e =>
    match e with
    | .osOpen u => some u
    | _ => none

/-- Whether a trace creates any window. -/
def createsWindow (t : List Effect) : Bool :=
  t.any fun e =>
    match e with
    | .createWindow _ => true
    | _ => false

/-- Description of a command registered with the Tauri invoke bridge. -/
structure CommandSpec where
  name : String
  renameAll : Option String
  paramNames : List String
deriving DecidableEq, Repr

/-- `invoke_handler(tauri::generate_handler![open_url])` together with
`#[command(rename_all = "snake_case")] fn open_url(url: &str)`:
exactly one registered command. -/
def registeredCommands : List CommandSpec :=
  [{ name := "open_url", renameAll := some "snake_case", paramNames := ["url"] }]

/-- Dispatch of an invoke-bridge call: only the command named
"open_url" is handled, and it runs `open_url`. -/
def invokeHandler (os : String → Except IoError Unit) (cmd url : String) :
    Option (Outcome Unit × List Effect) :=
  if cmd = "open_url" then some (open_url os url) else none

/-- A webview window handle (identity is all the embedding needs). -/
structure Window where
  id : Nat
deriving DecidableEq, Repr

/-- Message printed by the single-instance callback
(`println!("a new app instance was opened with {args:?} ...")`). -/
def argsMessage (args : List String) : String :=
  "a new app instance was opened with [" ++ String.intercalate ", " args ++
    "] and the deep link event was already triggered"

/-- The closure passed to `tauri_plugin_single_instance::init`
(src/src-tauri/src/lib.rs lines 8-14).  It receives the new launch's
arguments, prints them, looks up the webview window labeled "main"
(`expect("no main window")` panics when absent), and requests focus on
it, discarding the focus call's result (`let _ = ...`). -/
def singleInstanceCallback (getWindow : String → Option Window)
    (setFocus : Window → Except IoError Unit) (args : List String) :
    Outcome Unit × List Effect :=
  let printed := Effect.printLn (argsMessage args)
  match getWindow "main" with
  | none => (.panicked "no main window", [printed])
  | some w =>
    -- `let _ = ....set_focus();` : the call is made, its result discarded
    let _ := setFocus w
    (.ok (), [printed, .focusWindow "main"])

/-- Plugins attached to the builder. -/
inductive Plugin where
  | singleInstance
  | deepLink
  | log (level : String)
deriving DecidableEq, Repr

/-- Plugins registered on the `Builder` before `setup` runs:
`#[cfg(desktop)]` guards the single-instance plugin; the deep-link plugin
is attached unconditionally. -/
def builderPlugins (isDesktop : Bool) : List Plugin :=
  (if isDesktop then [Plugin.singleInstance] else []) ++ [Plugin.deepLink]

/-- Compile-time and runtime facts the `setup` closure depends on. -/
structure SetupEnv where
  isLinuxOrWindows : Bool
  isDebug : Bool
  deepLinkRegisterAll : Except IoError Unit
  logPluginAttach : Except IoError Unit
deriving Repr

/-- The `setup` closure (src/src-tauri/src/lib.rs lines 18-37).
On linux/windows it calls `app.deep_link().register_all()?` (the `?`
returns early on error, before the logging block); under
`#[cfg(debug_assertions)]` it attaches the log plugin at
`log::LevelFilter::Info` with `?`.  Returns the closure's result and the
trace of successful plugin/registration steps. -/
def setup (env : SetupEnv) : Except IoError Unit × List Effect :=
  let step1 : Except IoError Unit × List Effect :=
    if env.isLinuxOrWindows then
      match env.deepLinkRegisterAll with
      | .error e => (.error e, [])
      | .ok _ => (.ok (), [.registerDeepLink])
    else (.ok (), [])
  match step1 with
  | (.error e, t) => (.error e, t)
  | (.ok _, t) =>
    if env.isDebug then
      match env.logPluginAttach with
      | .error e => (.error e, t)
      | .ok _ => (.ok (), t ++ [.attachLogger "Info"])
    else (.ok (), t)

/-- How the process run ends. -/
inductive ProcOutcome where
  | completed
  | panicked (msg : String)
deriving DecidableEq, Repr

/-- Environment for `run`: the setup environment plus the outcome of the
rest of the framework's startup (context loading, plugin init), which in
Tauri happens before the configured windows are created. -/
structure RunEnv where
  setupEnv : SetupEnv
  runtimeStartup : Except IoError Unit
deriving Repr

/-- `run` (src/src-tauri/src/lib.rs lines 4-41):
`builder ... .run(tauri::generate_context!()).expect("error while running tauri application")`.
Tauri's `Builder::run` returns `Err` when the setup hook or any other
startup step fails, and only creates the configured windows after a
successful startup; `expect` turns that `Err` into an immediate panic
with the given diagnostic.  The boolean records whether the main window
was shown. -/
def run (env : RunEnv) : ProcOutcome × Bool :=
  match (setup env.setupEnv).1 with
  | .error _ => (.panicked "error while running tauri application", false)
  | .ok _ =>
    match env.runtimeStartup with
    | .error _ => (.panicked "error while running tauri application", false)
    | .ok _ => (.completed, true)

/-- An OS oracle that always accepts the open request. -/
def osAlwaysOk : String → Except IoError Unit := fun _ => .ok ()

/-- An OS oracle that always rejects the open request. -/
def osAlwaysFails : String → Except IoError Unit :=
  fun _ => .error { msg := "exit status 1" }

/-- C1 (counterexample): the claim "open_url returns Ok(()) regardless of
whether the OS open call succeeded or failed" is false: with an OS oracle
that rejects the request, `open_url` does not return `Ok(())` (it panics
in `unwrap`). -/
theorem C1_counterexample :
    (open_url osAlwaysFails "https://example.com").1 ≠ Outcome.ok () := by
  decide

/-- C1 (amended): for every string url, open_url(url) returns Ok(())
exactly when the underlying OS open call succeeds; the OS failure is
never surfaced to the caller as the declared error type (on failure the
function panics instead of returning). -/
theorem C1_ok_iff_os_accepts (os : String → Except IoError Unit)
    (url : String) (e : Error) :
    (open_url os url).1 ≠ Outcome.err e ∧
    ((open_url os url).1 = Outcome.ok () ↔ osAccepted (os url) = true) := by
  cases h : os url <;> simp [open_url, h, osAccepted]

/-- C2: open_url never returns the Err variant of its declared Result
type: when the OS open call succeeds it returns Ok(()), and when the OS
open call fails it panics via unwrap instead of returning a value. -/
theorem C2_unwrap_never_err (os : String → Except IoError Unit)
    (url : String) :
    (∀ e : Error, (open_url os url).1 ≠ Outcome.err e) ∧
    (open_url os url).1 =
      (if osAccepted (os url) then Outcome.ok ()
       else Outcome.panicked unwrapPanicMsg) := by
  cases h : os url <;> simp [open_url, h, osAccepted]

/-- C3: the string open_url hands to the OS opener is exactly the string
received from the caller: the trace of strings passed to the opener is
the one-element list [url], untransformed and unvalidated. -/
theorem C3_url_passed_verbatim (os : String → Except IoError Unit)
    (url : String) :
    handedToOs (open_url os url).2 = [url] := by
  cases h : os url <;> simp [open_url, h, handedToOs]

/-- C4: exactly one command is registered with the invoke bridge, named
"open_url" with parameter list ["url"] and snake_case renaming; the
dispatcher handles "open_url" by running `open_url` and handles no other
command name. -/
theorem C4_single_command (os : String → Except IoError Unit)
    (cmd url : String) :
    registeredCommands =
      [{ name := "open_url", renameAll := some "snake_case",
         paramNames := ["url"] }] ∧
    invokeHandler os "open_url" url = some (open_url os url) ∧
    (cmd ≠ "open_url" → invokeHandler os cmd url = none) := by
  refine ⟨rfl, rfl, fun h => ?_⟩
  simp [invokeHandler, h]

/-- Witness for C4 at concrete inputs. -/
theorem C4_single_command_witness :
    registeredCommands =
      [{ name := "open_url", renameAll := some "snake_case",
         paramNames := ["url"] }] ∧
    invokeHandler osAlwaysOk "open_url" "https://example.com" =
      some (open_url osAlwaysOk "https://example.com") ∧
    ("greet" ≠ "open_url" →
      invokeHandler osAlwaysOk "greet" "https://example.com" = none) :=
  C4_single_command osAlwaysOk "greet" "https://example.com"

/-- C5: if any error occurs during plugin setup (deep-link registration
or logger attachment) or during the rest of runtime startup, `run`
terminates the process immediately by panicking with the diagnostic
"error while running tauri application", and no window is shown. -/
theorem C5_failfast (env : RunEnv) (e : IoError)
    (h : (setup env.setupEnv).1 = Except.error e ∨
         env.runtimeStartup = Except.error e) :
    run env = (ProcOutcome.panicked "error while running tauri application",
               false) := by
  rcases h with h | h
  · simp [run, h]
  · unfold run
    cases hs : (setup env.setupEnv).1 <;> simp [h]

/-- A run environment whose deep-link registration fails during setup. -/
def envSetupFails : RunEnv :=
  { setupEnv :=
      { isLinuxOrWindows := true, isDebug := true,
        deepLinkRegisterAll := .error { msg := "registration denied" },
        logPluginAttach := .ok () },
    runtimeStartup := .ok () }

/-- Witness for C5 at a concrete environment whose setup fails. -/
theorem C5_failfast_witness :
    run envSetupFails =
      (ProcOutcome.panicked "error while running tauri application", false) :=
  C5_failfast envSetupFails { msg := "registration denied" } (Or.inl rfl)

/-- C6: the error type has exactly one kind, wrapping an I/O error
transparently: every Error is Io of some I/O error, the conversion from
an I/O error yields display equal to the wrapped error's display string,
and the serialized form always equals the display string. -/
theorem C6_error_transparent (e : Error) (io : IoError) :
    (∃ i : IoError, e = Error.Io i) ∧
    Error.display (Error.fromIo io) = io.msg ∧
    Error.serialize e = Error.display e := by
  cases e with
  | Io i => exact ⟨⟨i, rfl⟩, rfl, rfl⟩

/-- C7: open_url changes no in-process state and spawns no threads: its
entire effect trace is the single OS open call (so it contains neither a
spawnThread effect nor any other effect). -/
theorem C7_frame (os : String → Except IoError Unit) (url : String) :
    (open_url os url).2 = [Effect.osOpen url] ∧
    Effect.spawnThread ∉ (open_url os url).2 := by
  cases h : os url <;> simp [open_url, h]

/-- C8: with the preceding deep-link step and the logger attachment call
itself succeeding, the setup trace contains the Info-level logger
attachment if and only if the build is a debug build. -/
theorem C8_logger_iff_debug (env : SetupEnv)
    (h1 : env.isLinuxOrWindows = true → env.deepLinkRegisterAll = Except.ok ())
    (h2 : env.logPluginAttach = Except.ok ()) :
    Effect.attachLogger "Info" ∈ (setup env).2 ↔ env.isDebug = true := by
  unfold setup
  cases hl : env.isLinuxOrWindows with
  | true => cases hd : env.isDebug <;> simp [h1 hl, h2, hd]
  | false => cases hd : env.isDebug <;> simp [h2, hd]

/-- A debug-build setup environment with all steps succeeding. -/
def debugSetupEnv : SetupEnv :=
  { isLinuxOrWindows := true, isDebug := true,
    deepLinkRegisterAll := .ok (), logPluginAttach := .ok () }

/-- A release-build setup environment with all steps succeeding. -/
def releaseSetupEnv : SetupEnv :=
  { isLinuxOrWindows := true, isDebug := false,
    deepLinkRegisterAll := .ok (), logPluginAttach := .ok () }

/-- Witness for C8: in a concrete debug environment the logger is
attached, in a concrete release environment it is not. -/
theorem C8_logger_iff_debug_witness :
    (Effect.attachLogger "Info" ∈ (setup debugSetupEnv).2 ↔
      debugSetupEnv.isDebug = true) ∧
    (Effect.attachLogger "Info" ∈ (setup releaseSetupEnv).2 ↔
      releaseSetupEnv.isDebug = true) :=
  ⟨C8_logger_iff_debug debugSetupEnv (fun _ => rfl) rfl,
   C8_logger_iff_debug releaseSetupEnv (fun _ => rfl) rfl⟩

/-- C9: on desktop the single-instance plugin is attached (and not on
non-desktop targets); when its callback runs with the "main" window
present it prints the new launch's invocation arguments, requests focus
on the "main" window, and creates no window. -/
theorem C9_single_instance (getWindow : String → Option Window)
    (setFocus : Window → Except IoError Unit) (args : List String)
    (w : Window) (hw : getWindow "main" = some w) :
    Plugin.singleInstance ∈ builderPlugins true ∧
    Plugin.singleInstance ∉ builderPlugins false ∧
    (singleInstanceCallback getWindow setFocus args).2 =
      [Effect.printLn (argsMessage args), Effect.focusWindow "main"] ∧
    createsWindow (singleInstanceCallback getWindow setFocus args).2 = false := by
  refine ⟨by simp [builderPlugins], by simp [builderPlugins], ?_, ?_⟩ <;>
    simp [singleInstanceCallback, hw, createsWindow]

/-- A window lookup under which only the label "main" resolves. -/
def getWindowMain : String → Option Window :=
  fun label => if label = "main" then some { id := 0 } else none

/-- Witness for C9 at concrete inputs. -/
theorem C9_single_instance_witness :
    Plugin.singleInstance ∈ builderPlugins true ∧
    Plugin.singleInstance ∉ builderPlugins false ∧
    (singleInstanceCallback getWindowMain (fun _ => .ok ()) ["roomy://x"]).2 =
      [Effect.printLn (argsMessage ["roomy://x"]), Effect.focusWindow "main"] ∧
    createsWindow
      (singleInstanceCallback getWindowMain (fun _ => .ok ()) ["roomy://x"]).2
      = false :=
  C9_single_instance getWindowMain (fun _ => .ok ()) ["roomy://x"]
    { id := 0 } rfl

/-- C10: when the single-instance callback runs and no window labeled
"main" exists, it panics with "no main window"; when the window exists,
the callback's outcome is Ok regardless of the focus call's result (any
focus failure is discarded and never reported). -/
theorem C10_callback_panic_or_discard (getWindow : String → Option Window)
    (setFocus setFocus2 : Window → Except IoError Unit)
    (args : List String) :
    (getWindow "main" = none →
      (singleInstanceCallback getWindow setFocus args).1 =
        Outcome.panicked "no main window") ∧
    (∀ w : Window, getWindow "main" = some w →
      (singleInstanceCallback getWindow setFocus args).1 = Outcome.ok () ∧
      (singleInstanceCallback getWindow setFocus args).1 =
        (singleInstanceCallback getWindow setFocus2 args).1) := by
  constructor
  · intro h
    simp [singleInstanceCallback, h]
  · intro w h
    simp [singleInstanceCallback, h]

/-- A window lookup under which no label resolves. -/
def getWindowNone : String → Option Window := fun _ => none

/-- Witness for C10 at concrete inputs: with no windows the callback
panics; with a "main" window it returns Ok even when the focus call
fails, matching the outcome under a succeeding focus call. -/
theorem C10_callback_panic_or_discard_witness :
    (singleInstanceCallback getWindowNone
        (fun _ => .error { msg := "focus denied" }) ["a"]).1 =
      Outcome.panicked "no main window" ∧
    (singleInstanceCallback getWindowMain
        (fun _ => .error { msg := "focus denied" }) ["a"]).1 =
      Outcome.ok () ∧
    (singleInstanceCallback getWindowMain
        (fun _ => .error { msg := "focus denied" }) ["a"]).1 =
      (singleInstanceCallback getWindowMain (fun _ => .ok ()) ["a"]).1 :=
  ⟨(C10_callback_panic_or_discard getWindowNone
      (fun _ => .error { msg := "focus denied" }) (fun _ => .ok ()) ["a"]).1 rfl,
   (C10_callback_panic_or_discard getWindowMain
      (fun _ => .error { msg := "focus denied" }) (fun _ => .ok ()) ["a"]).2
      { id := 0 } rfl⟩

end Roomy
